import Mathlib

/-!
Shallow embedding of the MyThreadPool repository (two C++ variants of the same
thread pool: src/ThreadCpp/threadpool.cpp and src/ThreadCppFinal/threadpool.h).

The pool bookkeeping logic (configuration setters, start, the submit
admission/backpressure/spawn path, and the worker fetch loop) is textually the
same in both variants, so it is embedded once as a state machine over a
parameterised task type.  The parts that differ between the variants, namely
the per-submission handle (hand-rolled Result/Any/Semaphore in ThreadCpp,
std::packaged_task plus std::future in ThreadCppFinal) are embedded separately
in namespaces TCpp and Final.

Concurrency is modelled sequentially: each public operation and each worker
loop iteration runs in the critical section guarded by taskQueMtx_, so one
operation is one atomic step on the state.  The 1 second admission wait of
submitTask waits on the predicate "queue size below capacity"; with no
concurrent dequeue the truth of that predicate is stable over the wait, so in
the sequential model the wait succeeds exactly when the predicate holds in the
current state, and a queue that is at capacity for the whole timeout is a
state in which the predicate is false.  C++ int counters are embedded as Int
(no scenario in the claims brings any counter near the 32-bit range; the one
width-sensitive operation in the sources, the (size_t) cast in the admission
predicate, is embedded explicitly as a reduction modulo 2 ^ 64).
-/

/-- threadpool.h line 17: task queue capacity default, INT32_MAX. -/
def TASK_MAX_THRESHHOLD : Int := 2147483647

/-- threadpool.h line 19: worker-count ceiling (CACHED mode only). -/
def THREAD_MAX_THRESHHOLD : Int := 10

/-- threadpool.h line 21: idle-timeout threshold in seconds for CACHED mode. -/
def THREAD_MAX_IDLE_TIME : Int := 60

/-- threadpool.h lines 24-27: pool operating mode. -/
inductive PoolMode where
  | MODE_FIXED
  | MODE_CACHED
deriving DecidableEq, Repr

/-- The C++ cast (size_t)x applied to an int value: reduction into the
unsigned 64-bit range. -/
def asSizeT (i : Int) : Nat := (i % (2 ^ 64 : Int)).toNat

/-- Pool state: the fields of class ThreadPool (threadpool.h lines 281-309)
together with the static id generator of class Thread (line 56).  threads_
maps ids to Thread objects; only the key set matters to the embedding, so it
is kept as the list of live ids in insertion order.  The task queue holds
elements of a parameter type so that the same machine serves both variants
(shared_ptr of Task in ThreadCpp, a void() wrapper in ThreadCppFinal). -/
structure PoolState (TaskT : Type) where
  threads : List Nat
  initThreadSize : Int
  threadSizeThreshHold : Int
  curThreadSize : Int
  idleThreadSize : Int
  taskQue : List TaskT
  taskSize : Int
  taskQueMaxThreshHold : Int
  poolMode : PoolMode
  isPoolRunning : Bool
  generateId : Nat
deriving DecidableEq, Repr

namespace ThreadPool

variable {TaskT : Type}

/-- ThreadPool constructor (threadpool.h lines 67-76 and threadpool.cpp
lines 9-18): 4 initial workers, empty queue, zero counters, default
thresholds, FIXED mode, not running.  generateId is 0 for a fresh program
(Thread generateId_ starts at 0). -/
def new (TaskT : Type) : PoolState TaskT where
  threads := []
  initThreadSize := 4
  threadSizeThreshHold := THREAD_MAX_THRESHHOLD
  curThreadSize := 0
  idleThreadSize := 0
  taskQue := []
  taskSize := 0
  taskQueMaxThreshHold := TASK_MAX_THRESHHOLD
  poolMode := PoolMode.MODE_FIXED
  isPoolRunning := false
  generateId := 0

/-- threadpool.h lines 277-279 / threadpool.cpp lines 208-210. -/
def checkRunningState (s : PoolState TaskT) : Bool := s.isPoolRunning

/-- setMode (threadpool.h lines 89-92 / threadpool.cpp lines 28-31):
no-op while running, otherwise overwrite poolMode_. -/
def setMode (s : PoolState TaskT) (mode : PoolMode) : PoolState TaskT :=
  if checkRunningState s then s else { s with poolMode := mode }

/-- setInitThreadSize (threadpool.h lines 95-97 / threadpool.cpp lines 33-35):
overwrites initThreadSize_ unconditionally, with no running-state guard. -/
def setInitThreadSize (s : PoolState TaskT) (size : Int) : PoolState TaskT :=
  { s with initThreadSize := size }

/-- setTaskQueMaxThreshHold (threadpool.h lines 100-103 / threadpool.cpp
lines 37-40): no-op while running, otherwise overwrite the queue capacity. -/
def setTaskQueMaxThreshHold (s : PoolState TaskT) (threshHold : Int) : PoolState TaskT :=
  if checkRunningState s then s else { s with taskQueMaxThreshHold := threshHold }

/-- setThreadSizeThreshHold (threadpool.h lines 106-110 / threadpool.cpp
lines 41-44): no-op while running; otherwise the ceiling is overwritten only
when the pool is in CACHED mode. -/
def setThreadSizeThreshHold (s : PoolState TaskT) (threshHold : Int) : PoolState TaskT :=
  if checkRunningState s then s
  else if s.poolMode = PoolMode.MODE_CACHED then { s with threadSizeThreshHold := threshHold }
  else s

/-- start (threadpool.h lines 169-188 / threadpool.cpp lines 84-103): set the
running flag, overwrite initThreadSize_ and curThreadSize_ with the argument,
create one Thread record per worker (ids drawn from the generator), start each
and increment the idle counter once per worker. -/
def start (s : PoolState TaskT) (initThreadSize : Int) : PoolState TaskT :=
  { s with
    isPoolRunning := true
    initThreadSize := initThreadSize
    curThreadSize := initThreadSize
    threads := s.threads ++ (List.range initThreadSize.toNat).map (fun i => s.generateId + i)
    generateId := s.generateId + initThreadSize.toNat
    idleThreadSize := s.idleThreadSize + initThreadSize }

/-- The admission predicate of submitTask (threadpool.h line 130 /
threadpool.cpp line 52): taskQue_.size() below (size_t)taskQueMaxThreshHold_.
notFull_ is waited on with a 1 second timeout against this predicate; in the
sequential model the wait succeeds exactly when the predicate holds now. -/
def admissible (s : PoolState TaskT) : Prop :=
  s.taskQue.length < asSizeT s.taskQueMaxThreshHold

instance (s : PoolState TaskT) : Decidable (admissible s) := by
  unfold admissible; infer_instance

/-- submitTask, the part common to both variants (threadpool.h lines 126-166 /
threadpool.cpp lines 45-82).  Returns the new state and whether the task was
admitted.  On timeout (queue still at capacity) nothing is enqueued and the
state is unchanged; the variant-specific rejected handle is built by the
wrappers below.  On admission the task is appended at the back of the queue
and taskSize_ is incremented, then — only in CACHED mode, when the updated
taskSize_ exceeds idleThreadSize_ and curThreadSize_ is below the ceiling —
exactly one new worker is created, started, and both curThreadSize_ and
idleThreadSize_ are incremented. -/
def submitTask (s : PoolState TaskT) (task : TaskT) : PoolState TaskT × Bool :=
  if admissible s then
    let s1 : PoolState TaskT :=
      { s with taskQue := s.taskQue ++ [task], taskSize := s.taskSize + 1 }
    if s1.poolMode = PoolMode.MODE_CACHED ∧ s1.taskSize > s1.idleThreadSize ∧
        s1.curThreadSize < s1.threadSizeThreshHold then
      ({ s1 with
          threads := s1.threads ++ [s1.generateId]
          generateId := s1.generateId + 1
          curThreadSize := s1.curThreadSize + 1
          idleThreadSize := s1.idleThreadSize + 1 }, true)
    else (s1, true)
  else (s, false)

/-- Outcome of one pass through the fetch section of threadFunc. -/
inductive WorkerAction (TaskT : Type) where
  /-- Queue empty and the running flag is down: erase the worker record,
  notify exitCond_, return from threadFunc. -/
  | exitShutdown
  /-- CACHED mode, the 1 second wait timed out, the idle duration reached
  THREAD_MAX_IDLE_TIME and curThreadSize_ exceeds initThreadSize_: erase the
  worker record, decrement curThreadSize_ and idleThreadSize_, return. -/
  | exitIdleTimeout
  /-- Queue still empty, no exit condition: wait again on notEmpty_. -/
  | keepWaiting
  /-- Queue non-empty: decrement idleThreadSize_, pop the front task,
  decrement taskSize_, notify, then run the task outside the lock. -/
  | dequeued (task : TaskT)
deriving DecidableEq, Repr

/-- One pass through the fetch section of threadFunc (threadpool.h
lines 200-263 / threadpool.cpp lines 114-190), i.e. one evaluation of the
while condition and of the body that follows it.  tid is the worker id,
timedOut tells whether the CACHED-mode 1 second wait on notEmpty_ returned
cv_status timeout, and dur is the elapsed idle time in seconds since
lastTime.  The source checks the conditions in this order: queue emptiness;
the running flag (shutdown exit, with no counter updates); then in CACHED
mode the idle-timeout retirement; a non-empty queue leads to the dequeue. -/
def threadFuncFetch (s : PoolState TaskT) (tid : Nat) (timedOut : Bool) (dur : Int) :
    WorkerAction TaskT × PoolState TaskT :=
  match s.taskQue with
  | [] =>
    if ¬ s.isPoolRunning then
      (WorkerAction.exitShutdown, { s with threads := s.threads.filter (fun i => i ≠ tid) })
    else if s.poolMode = PoolMode.MODE_CACHED then
      if timedOut ∧ dur ≥ THREAD_MAX_IDLE_TIME ∧ s.curThreadSize > s.initThreadSize then
        (WorkerAction.exitIdleTimeout,
          { s with
            threads := s.threads.filter (fun i => i ≠ tid)
            curThreadSize := s.curThreadSize - 1
            idleThreadSize := s.idleThreadSize - 1 })
      else (WorkerAction.keepWaiting, s)
    else (WorkerAction.keepWaiting, s)
  | task :: rest =>
    (WorkerAction.dequeued task,
      { s with idleThreadSize := s.idleThreadSize - 1, taskQue := rest, taskSize := s.taskSize - 1 })

/-- Tail of a worker loop iteration after the task has run outside the lock
(threadpool.h lines 270-272 / threadpool.cpp lines 199-200): increment
idleThreadSize_ and reset lastTime. -/
def threadFuncAfterExec (s : PoolState TaskT) : PoolState TaskT :=
  { s with idleThreadSize := s.idleThreadSize + 1 }

end ThreadPool

namespace TCpp

/-- Modelled from the spec: the type-erased result container (class Any) is
declared in ThreadCpp/threadpool.h, which is absent from the source tree;
spec section 9 describes it as "a boxed any value returned from task
execution".  A default-constructed Any is empty; the uses in the sources
store a string (the "" sentinel of Result get, threadpool.cpp line 258) or
an unsigned long long (MyTask run, main.cpp line 27). -/
inductive Any where
  | empty
  | str (s : String)
  | ulong (n : Nat)
deriving DecidableEq, Repr

/-- Modelled from the spec: Any cast_ of uLong (used at main.cpp line 41)
returns the stored value when it holds a uLong; a mismatching cast fails. -/
def Any.castULong : Any → Option Nat
  | Any.ulong n => some n
  | _ => none

/-- The Result slot of ThreadCpp (class declared in the absent header;
method bodies in threadpool.cpp lines 249-267).  Modelled from the spec
where the header is missing: the slot pairs a validity flag with storage for
one Any value and a counting semaphore the consumer blocks on until
readiness; semCount is the semaphore counter (0 until setVal posts). -/
structure Result where
  isValid : Bool
  semCount : Nat
  any : Any
deriving DecidableEq, Repr

/-- Result constructor (threadpool.cpp lines 249-254): records the validity
flag; any_ is default-constructed, the semaphore starts at 0.  The second
C++ argument defaults to true at the declaration site (absent header),
matching the two call sites: Result(sp) on success, Result(sp,false) on
admission rejection. -/
def Result.new (isValid : Bool) : Result where
  isValid := isValid
  semCount := 0
  any := Any.empty

/-- Result setVal (threadpool.cpp lines 264-267): store the value, then post
the semaphore. -/
def Result.setVal (r : Result) (v : Any) : Result :=
  { r with any := v, semCount := r.semCount + 1 }

/-- What a call to Result get does, in a sequential model of the semaphore. -/
inductive GetOutcome where
  /-- Returned a value with no semaphore wait at all. -/
  | immediate (v : Any)
  /-- The semaphore had been posted: the wait passed and the stored value is
  returned. -/
  | value (v : Any)
  /-- The semaphore counter is 0: the caller blocks until a post. -/
  | blocked
deriving DecidableEq, Repr

/-- Result get (threadpool.cpp lines 256-262): an invalid slot returns the
Any holding "" at once, before touching the semaphore; otherwise the caller
waits on sem_ (blocking while its counter is 0) and then returns any_. -/
def Result.get (r : Result) : GetOutcome :=
  if r.isValid then
    if r.semCount > 0 then GetOutcome.value r.any else GetOutcome.blocked
  else GetOutcome.immediate (Any.str "")

/-- Task exec (threadpool.cpp lines 239-242): when a Result slot is attached,
call run() and hand the value to setVal.  run is embedded as a computation
that may raise (Except); the source has no try/catch here, so a raised error
propagates out of exec — captured by the Except.error outcome. -/
def Task.exec {E : Type} (run : Unit → Except E Any) (result : Option Result) :
    Except E (Option Result) :=
  match result with
  | none => Except.ok none
  | some r =>
    match run () with
    | Except.ok v => Except.ok (some (r.setVal v))
    | Except.error e => Except.error e

/-- The execute segment of a ThreadCpp worker loop iteration (threadpool.cpp
lines 193-200): outside the lock, task exec runs, then idleThreadSize_ is
incremented and lastTime reset.  There is no try/catch anywhere in
threadFunc: an error raised by run() propagates out of exec and out of
threadFunc itself (Except.error), so the iteration never reaches the
idleThreadSize_ increment and the detached worker thread terminates. -/
def threadFuncExec {TaskT E : Type} (run : Unit → Except E Any) (result : Option Result)
    (s : PoolState TaskT) : Except E (Option Result × PoolState TaskT) :=
  match Task.exec run result with
  | Except.ok r2 => Except.ok (r2, ThreadPool.threadFuncAfterExec s)
  | Except.error e => Except.error e

/-- submitTask of ThreadCpp (threadpool.cpp lines 45-82): the common
admission/enqueue/spawn path, returning Result(sp,false) on timeout (queue
still at capacity) and Result(sp) — valid — on success. -/
def submitTaskR {TaskT : Type} (s : PoolState TaskT) (sp : TaskT) :
    PoolState TaskT × Result :=
  let p := ThreadPool.submitTask s sp
  (p.1, Result.new p.2)

/-- MyTask run (main.cpp lines 15-28): uLong sum = 0; for (uLong i = begin_;
i <= end_; i = i + 1) sum = sum + i; return sum.  uLong is unsigned long
long, so each addition reduces modulo 2 ^ 64; the int fields begin_ and
end_ convert to uLong through the same reduction. -/
def sumLoop (b e acc : Nat) : Nat :=
  if b ≤ e then sumLoop (b + 1) e ((acc + b) % 2 ^ 64) else acc
termination_by e + 1 - b
decreasing_by omega

/-- MyTask run wrapped as an Any producer, fields begin_ and end_ as in the
constructor call MyTask(1,10000000) at main.cpp line 39. -/
def MyTask.run (begin_ end_ : Int) : Any :=
  Any.ulong (sumLoop (asSizeT begin_) (asSizeT end_) 0)

end TCpp

namespace Final

/-- The shared state of the std::future returned by submitTask in
ThreadCppFinal: empty until the packaged_task runs, then holding either the
returned value or the error the callable raised. -/
inductive FutureState (V E : Type) where
  | pending
  | ready (v : V)
  | raised (e : E)
deriving DecidableEq, Repr

/-- Invoking a std::packaged_task (the (*task)() calls at threadpool.h
lines 136 and 142): the stored callable runs; its return value, or the error
it raises, is stored in the shared state.  The invocation itself returns
normally in either case — a raised error is captured, not propagated to the
invoking thread. -/
def packagedTaskInvoke {V E : Type} (fn : Unit → Except E V) : FutureState V E :=
  match fn () with
  | Except.ok v => FutureState.ready v
  | Except.error e => FutureState.raised e

/-- future get on the shared state: blocks while pending (none); once the
task has run it returns the stored value, or rethrows the stored error. -/
def futureGet {V E : Type} : FutureState V E → Option (Except E V)
  | FutureState.pending => none
  | FutureState.ready v => some (Except.ok v)
  | FutureState.raised e => some (Except.error e)

/-- submitTask of ThreadCppFinal (threadpool.h lines 114-166): the common
admission/enqueue/spawn path; on success the future of the enqueued
packaged_task is returned still pending; on timeout (queue still at
capacity) a fresh packaged_task returning a default-constructed RType() is
built, run on the spot, and its — already ready — future is returned
(lines 132-137).  dflt is the value RType() of the default constructor. -/
def submitTaskF {V E : Type} (s : PoolState (Unit → Except E V))
    (fn : Unit → Except E V) (dflt : V) :
    PoolState (Unit → Except E V) × FutureState V E :=
  let p := ThreadPool.submitTask s fn
  if p.2 then (p.1, FutureState.pending)
  else (p.1, packagedTaskInvoke (fun _ => Except.ok dflt))

/-- The execute segment of a ThreadCppFinal worker loop iteration
(threadpool.h lines 265-272): the dequeued wrapper invokes the
packaged_task; the invocation captures any raised error in the shared state
and returns normally, so the iteration always reaches the idleThreadSize_
increment — the Except layer of the segment can never be an error. -/
def threadFuncExecF {TaskT V E : Type} (fn : Unit → Except E V) (s : PoolState TaskT) :
    Except E (FutureState V E × PoolState TaskT) :=
  Except.ok (packagedTaskInvoke fn, ThreadPool.threadFuncAfterExec s)

end Final

/-! Derived definitions used by the theorems below: the counter/queue
invariant of spec section 3, sequencing of submissions and of worker
dequeues, a mathematical recursion for the MyTask sum, and the concrete
states of the scenarios in the sources. -/

/-- The counter consistency invariant of spec section 3 restricted to the
queue: taskSize_ mirrors the queue length, and the queue length stays within
the (size_t) image of taskQueMaxThreshHold_. -/
def QueueInv {TaskT : Type} (s : PoolState TaskT) : Prop :=
  s.taskSize = (s.taskQue.length : Int) ∧
  s.taskQue.length ≤ asSizeT s.taskQueMaxThreshHold

/-- Fold a list of submissions through submitTask, keeping the states. -/
def submitAll {TaskT : Type} (s : PoolState TaskT) (ts : List TaskT) : PoolState TaskT :=
  ts.foldl (fun a t => (ThreadPool.submitTask a t).1) s

/-- The order in which worker fetches drain the queue of a state: repeatedly
run the fetch section (worker id 0, no timeout) and collect the dequeued
tasks until the queue is empty. -/
def drainOrder {TaskT : Type} (s : PoolState TaskT) : List TaskT :=
  match h : s.taskQue with
  | [] => []
  | task :: _ => task :: drainOrder (ThreadPool.threadFuncFetch s 0 false 0).2
termination_by s.taskQue.length
decreasing_by simp [ThreadPool.threadFuncFetch, h]

/-- Mathematical recursion for the sum computed by the MyTask loop, with no
modular reduction: the sum of the integers from b to e. -/
def sumSpec (b e : Nat) : Nat :=
  if b ≤ e then b + sumSpec (b + 1) e else 0
termination_by e + 1 - b
decreasing_by omega

/-- A pool that is at capacity and stays there: fresh pool with the queue
capacity set to 0, so the admission predicate is false for the whole
1 second wait. -/
def fullPool : PoolState Nat :=
  ThreadPool.setTaskQueMaxThreshHold (ThreadPool.new Nat) 0

/-- The same at-capacity pool over the ThreadCppFinal task type. -/
def fullPoolF : PoolState (Unit → Except String Nat) :=
  ThreadPool.setTaskQueMaxThreshHold (ThreadPool.new (Unit → Except String Nat)) 0

/-- A started pool, as after pool.start(2) on a fresh pool. -/
def runningPool : PoolState Nat := ThreadPool.start (ThreadPool.new Nat) 2

/-- A running CACHED pool: fresh pool put in CACHED mode, started with 2
workers, both busy (idle counter 0). -/
def cachedPool : PoolState Nat :=
  { ThreadPool.start (ThreadPool.setMode (ThreadPool.new Nat) PoolMode.MODE_CACHED) 2 with
      idleThreadSize := 0 }

/-- A CACHED pool above its initial size with an empty queue, as after a
burst subsided: 3 live workers, 2 initial, all idle. -/
def cachedIdlePool : PoolState Nat :=
  { ThreadPool.start (ThreadPool.setMode (ThreadPool.new Nat) PoolMode.MODE_CACHED) 2 with
      threads := [0, 1, 2]
      curThreadSize := 3
      idleThreadSize := 3
      generateId := 3 }

/-- A pool in shutdown: started with 2 workers, then the running flag
cleared by the destructor (threadpool.h line 80), queue empty. -/
def stoppingPool : PoolState Nat :=
  { ThreadPool.start (ThreadPool.new Nat) 2 with isPoolRunning := false }

/-- A task whose run raises: the concrete error input for the execution
failure analysis. -/
def boomTask : Unit → Except String TCpp.Any := fun _ => Except.error "boom"

/-- The pool of ThreadCpp main (main.cpp lines 35-37): fresh pool, started
with 4 workers.  Queue elements are task ids; the single MyTask(1,10000000)
instance is id 0. -/
def mainPool : PoolState Nat := ThreadPool.start (ThreadPool.new Nat) 4

/-- The Result handle of the single submission in ThreadCpp main
(main.cpp line 39). -/
def mySlot : TCpp.Result := (TCpp.submitTaskR mainPool 0).2

/-- That handle after the worker has executed MyTask(1,10000000) and exec
has delivered the value through setVal. -/
def mySlotAfter : TCpp.Result :=
  TCpp.Result.setVal mySlot (TCpp.MyTask.run 1 10000000)

/-! Helper lemmas. -/

/-- An admitted submission appends the task at the back of the queue,
increments taskSize_, and leaves the capacity field alone. -/
theorem submitTask_admitted {TaskT : Type} (s : PoolState TaskT) (t : TaskT)
    (h : ThreadPool.admissible s) :
    (ThreadPool.submitTask s t).2 = true ∧
    (ThreadPool.submitTask s t).1.taskQue = s.taskQue ++ [t] ∧
    (ThreadPool.submitTask s t).1.taskSize = s.taskSize + 1 ∧
    (ThreadPool.submitTask s t).1.taskQueMaxThreshHold = s.taskQueMaxThreshHold := by
  unfold ThreadPool.submitTask
  rw [if_pos h]
  dsimp only
  split
  · exact ⟨rfl, rfl, rfl, rfl⟩
  · exact ⟨rfl, rfl, rfl, rfl⟩

/-- A fetch on a non-empty queue dequeues the head and keeps the tail. -/
theorem fetch_dequeue {TaskT : Type} (s : PoolState TaskT) (tid : Nat) (timedOut : Bool)
    (dur : Int) (u : TaskT) (us : List TaskT) (h : s.taskQue = u :: us) :
    ThreadPool.threadFuncFetch s tid timedOut dur =
      (ThreadPool.WorkerAction.dequeued u,
        { s with idleThreadSize := s.idleThreadSize - 1, taskQue := us,
                 taskSize := s.taskSize - 1 }) := by
  unfold ThreadPool.threadFuncFetch
  split
  · simp_all
  · rename_i t rest heq
    rw [h] at heq
    cases heq
    rfl

/-- When the capacity leaves room for a whole batch, submitting the batch
appends it in order and keeps the capacity field. -/
theorem submitAll_queue {TaskT : Type} (ts : List TaskT) (s : PoolState TaskT)
    (h : s.taskQue.length + ts.length ≤ asSizeT s.taskQueMaxThreshHold) :
    (submitAll s ts).taskQue = s.taskQue ++ ts ∧
    (submitAll s ts).taskQueMaxThreshHold = s.taskQueMaxThreshHold := by
  induction ts generalizing s with
  | nil => simp [submitAll]
  | cons t ts ih =>
    have hadm : ThreadPool.admissible s := by
      unfold ThreadPool.admissible
      simp at h
      omega
    obtain ⟨-, hq, -, hcap⟩ := submitTask_admitted s t hadm
    have hstep : submitAll s (t :: ts) = submitAll (ThreadPool.submitTask s t).1 ts := by
      simp [submitAll]
    rw [hstep]
    have hlen : (ThreadPool.submitTask s t).1.taskQue.length + ts.length ≤
        asSizeT (ThreadPool.submitTask s t).1.taskQueMaxThreshHold := by
      rw [hq, hcap]
      simp at h ⊢
      omega
    obtain ⟨ih1, ih2⟩ := ih (ThreadPool.submitTask s t).1 hlen
    rw [ih1, ih2, hq, hcap]
    simp

/-- Draining a state by worker fetches yields exactly the queue contents in
order. -/
theorem drainOrder_eq {TaskT : Type} (n : Nat) (s : PoolState TaskT)
    (h : s.taskQue.length ≤ n) : drainOrder s = s.taskQue := by
  induction n generalizing s with
  | zero =>
    have hq : s.taskQue = [] := by
      cases hcase : s.taskQue with
      | nil => rfl
      | cons u us => rw [hcase] at h; simp at h
    rw [drainOrder, hq]
  | succ n ih =>
    cases hcase : s.taskQue with
    | nil => rw [drainOrder, hcase]
    | cons u us =>
      rw [drainOrder, hcase]
      rw [fetch_dequeue s 0 false 0 u us hcase]
      have : us.length ≤ n := by rw [hcase] at h; simp at h; omega
      rw [ih _ this]

/-- The MyTask accumulation loop computes the plain sum modulo 2 ^ 64. -/
theorem sumLoop_eq_sumSpec (n : Nat) : ∀ (b e acc : Nat), e + 1 - b ≤ n → acc < 2 ^ 64 →
    TCpp.sumLoop b e acc = (acc + sumSpec b e) % 2 ^ 64 := by
  induction n with
  | zero =>
    intro b e acc hn hacc
    have hbe : ¬ b ≤ e := by omega
    rw [TCpp.sumLoop, sumSpec, if_neg hbe, if_neg hbe]
    omega
  | succ n ih =>
    intro b e acc hn hacc
    by_cases hbe : b ≤ e
    · rw [TCpp.sumLoop, sumSpec, if_pos hbe, if_pos hbe]
      rw [ih (b + 1) e ((acc + b) % 2 ^ 64) (by omega) (Nat.mod_lt _ (by norm_num))]
      rw [Nat.mod_add_mod]
      congr 1
      omega
    · rw [TCpp.sumLoop, sumSpec, if_neg hbe, if_neg hbe]
      omega

/-- Closed form of the plain sum: twice the sum of b..e is
(e + 1 - b) * (b + e). -/
theorem sumSpec_closed (n : Nat) : ∀ (b e : Nat), e + 1 - b ≤ n →
    2 * sumSpec b e = (e + 1 - b) * (b + e) := by
  induction n with
  | zero =>
    intro b e hn
    have hbe : ¬ b ≤ e := by omega
    have h0 : e + 1 - b = 0 := by omega
    rw [sumSpec, if_neg hbe, h0]
    ring
  | succ n ih =>
    intro b e hn
    by_cases hbe : b ≤ e
    · obtain ⟨d, rfl⟩ : ∃ d, e = b + d := ⟨e - b, by omega⟩
      rw [sumSpec, if_pos hbe]
      have hih := ih (b + 1) (b + d) (by omega)
      have h1 : b + d + 1 - (b + 1) = d := by omega
      have h2 : b + d + 1 - b = d + 1 := by omega
      rw [h1] at hih
      rw [h2]
      rw [Nat.mul_add, hih]
      ring_nf
    · have h0 : e + 1 - b = 0 := by omega
      rw [sumSpec, if_neg hbe, h0]
      ring

/-- The concrete value of the demo sum: 1 + 2 + ... + 10000000. -/
theorem sumSpec_demo : sumSpec 1 10000000 = 50000005000000 := by
  have h := sumSpec_closed 10000000 1 10000000 (by norm_num)
  omega

/-- MyTask(1,10000000).run() returns the uLong 50000005000000. -/
theorem myTaskRun_value :
    TCpp.MyTask.run 1 10000000 = TCpp.Any.ulong 50000005000000 := by
  unfold TCpp.MyTask.run
  have h1 : asSizeT 1 = 1 := by decide
  have h2 : asSizeT 10000000 = 10000000 := by decide
  rw [h1, h2]
  rw [sumLoop_eq_sumSpec 10000000 1 10000000 0 (by norm_num) (by norm_num)]
  rw [sumSpec_demo]
  norm_num

/-- Reading the Result slot produced by delivering MyTask(1,10000000)
through setVal yields the uLong 50000005000000. -/
theorem mySlotAfter_get :
    TCpp.Result.get mySlotAfter = TCpp.GetOutcome.value (TCpp.Any.ulong 50000005000000) := by
  have hslotAfter : mySlotAfter =
      { isValid := true, semCount := 1, any := TCpp.Any.ulong 50000005000000 } := by
    show TCpp.Result.setVal mySlot (TCpp.MyTask.run 1 10000000) = _
    rw [myTaskRun_value]
    have hslot : mySlot = TCpp.Result.new true := by decide
    rw [hslot]
    rfl
  rw [hslotAfter]
  rfl

/-! The claims. -/

/-- C1: when the queue is at capacity for the whole 1 second admission
timeout (in the sequential model: the admission predicate is false), the
ThreadCpp submitTask returns a Result whose validity flag is down and the
state — in particular the queue — is unchanged, and get() on that handle
returns the "" sentinel immediately, with no semaphore wait; likewise the
ThreadCppFinal submitTask leaves the state unchanged and returns an already
ready future holding the default-constructed value, whose get() does not
block. -/
theorem claim_C1_admission_rejection (s : PoolState Nat) (sp : Nat)
    (sF : PoolState (Unit → Except String Nat)) (fn : Unit → Except String Nat) (dflt : Nat)
    (hfull : ¬ ThreadPool.admissible s) (hfullF : ¬ ThreadPool.admissible sF) :
    (TCpp.submitTaskR s sp).2.isValid = false ∧
    (TCpp.submitTaskR s sp).1 = s ∧
    TCpp.Result.get (TCpp.submitTaskR s sp).2 = TCpp.GetOutcome.immediate (TCpp.Any.str "") ∧
    (Final.submitTaskF sF fn dflt).1 = sF ∧
    (Final.submitTaskF sF fn dflt).2 = Final.FutureState.ready dflt ∧
    Final.futureGet (Final.submitTaskF sF fn dflt).2 = some (Except.ok dflt) := by
  have h1 : ThreadPool.submitTask s sp = (s, false) := by
    unfold ThreadPool.submitTask
    rw [if_neg hfull]
  have h2 : ThreadPool.submitTask sF fn = (sF, false) := by
    unfold ThreadPool.submitTask
    rw [if_neg hfullF]
  refine ⟨?_, ?_, ?_, ?_, ?_, ?_⟩
  · simp [TCpp.submitTaskR, h1, TCpp.Result.new]
  · simp [TCpp.submitTaskR, h1]
  · simp [TCpp.submitTaskR, h1, TCpp.Result.new, TCpp.Result.get]
  · simp [Final.submitTaskF, h2]
  · simp [Final.submitTaskF, h2, Final.packagedTaskInvoke]
  · simp [Final.submitTaskF, h2, Final.packagedTaskInvoke, Final.futureGet]

/-- C1 witness: the fresh pool with capacity 0 is at capacity, and the
submission handle it returns is marked invalid. -/
theorem claim_C1_admission_rejection_w :
    (¬ ThreadPool.admissible fullPool) ∧
    (TCpp.submitTaskR fullPool 1).2.isValid = false := by
  exact ⟨by decide,
    (claim_C1_admission_rejection fullPool 1 fullPoolF (fun _ => Except.ok 7) 0
      (by decide) (by decide)).1⟩

/-- C2 counterexample: in the ThreadCpp variant a task whose run raises
makes the execute segment of the worker loop end in an uncaught error — the
iteration does not survive to the idle increment, contradicting the claim
that the error is caught at the worker-loop boundary — and the error is not
observable through the Result slot either: the slot is never set and get()
still blocks. -/
theorem claim_C2_counterexample :
    TCpp.threadFuncExec boomTask (some (TCpp.Result.new true)) (ThreadPool.new Nat) =
      Except.error "boom" ∧
    TCpp.Result.get (TCpp.Result.new true) = TCpp.GetOutcome.blocked := by
  exact ⟨rfl, rfl⟩

/-- C2 amended: in the ThreadCppFinal variant the error of a failing task is
captured by the packaged_task invocation inside the worker loop — the
execute segment never ends in an error, the worker reaches the idle
increment and continues its loop, and the captured error is observable
through get() on the future, which rethrows it; in the ThreadCpp variant the
error propagates uncaught out of Task exec and out of the worker loop. -/
theorem claim_C2_amended_exec (fn : Unit → Except String Nat) (s : PoolState Nat)
    (run : Unit → Except String TCpp.Any) (r : TCpp.Result) (e : String) :
    (∀ err : String, Final.threadFuncExecF fn s ≠ Except.error err) ∧
    (fn () = Except.error e →
      Final.threadFuncExecF fn s =
        Except.ok (Final.FutureState.raised e, ThreadPool.threadFuncAfterExec s) ∧
      Final.futureGet (Final.FutureState.raised e : Final.FutureState Nat String) =
        some (Except.error e)) ∧
    (run () = Except.error e →
      TCpp.threadFuncExec run (some r) s = Except.error e) := by
  refine ⟨?_, ?_, ?_⟩
  · intro err h
    simp [Final.threadFuncExecF] at h
  · intro h
    constructor
    · simp [Final.threadFuncExecF, Final.packagedTaskInvoke, h]
    · rfl
  · intro h
    simp [TCpp.threadFuncExec, TCpp.Task.exec, h]

/-- C2 amended witness: concrete failing tasks on both variants. -/
theorem claim_C2_amended_exec_w :
    boomTask () = Except.error "boom" ∧
    TCpp.threadFuncExec boomTask (some (TCpp.Result.new true)) (ThreadPool.new Nat) =
      Except.error "boom" ∧
    Final.threadFuncExecF (fun _ => (Except.error "boom" : Except String Nat))
        (ThreadPool.new Nat) =
      Except.ok (Final.FutureState.raised "boom",
        ThreadPool.threadFuncAfterExec (ThreadPool.new Nat)) := by
  refine ⟨rfl, ?_, ?_⟩
  · exact (claim_C2_amended_exec (fun _ => (Except.error "boom" : Except String Nat))
      (ThreadPool.new Nat) boomTask (TCpp.Result.new true) "boom").2.2 rfl
  · exact ((claim_C2_amended_exec (fun _ => (Except.error "boom" : Except String Nat))
      (ThreadPool.new Nat) boomTask (TCpp.Result.new true) "boom").2.1 rfl).1

/-- C7 counterexample: on a fresh pool — not yet started, mode FIXED — the
worker-ceiling setter does not update its field (it is guarded by the CACHED
mode check), so "before start, each setter updates its field" fails. -/
theorem claim_C7_counterexample :
    (ThreadPool.new Nat).isPoolRunning = false ∧
    (ThreadPool.setThreadSizeThreshHold (ThreadPool.new Nat) 5).threadSizeThreshHold = 10 ∧
    (10 : Int) ≠ 5 := by
  decide

/-- C7 amended: once the pool is running each of the three setters leaves
the state entirely unchanged (a silent no-op); before start, the mode and
queue-capacity setters update their fields, and the worker-ceiling setter
updates its field exactly when the pool mode is CACHED (otherwise it too is
a no-op). -/
theorem claim_C7_amended_setters (s : PoolState Nat) (m : PoolMode) (a b : Int) :
    (s.isPoolRunning = true →
      ThreadPool.setMode s m = s ∧
      ThreadPool.setTaskQueMaxThreshHold s a = s ∧
      ThreadPool.setThreadSizeThreshHold s b = s) ∧
    (s.isPoolRunning = false →
      (ThreadPool.setMode s m).poolMode = m ∧
      (ThreadPool.setTaskQueMaxThreshHold s a).taskQueMaxThreshHold = a ∧
      (s.poolMode = PoolMode.MODE_CACHED →
        (ThreadPool.setThreadSizeThreshHold s b).threadSizeThreshHold = b) ∧
      (s.poolMode ≠ PoolMode.MODE_CACHED →
        ThreadPool.setThreadSizeThreshHold s b = s)) := by
  constructor
  · intro hr
    simp [ThreadPool.setMode, ThreadPool.setTaskQueMaxThreshHold,
      ThreadPool.setThreadSizeThreshHold, ThreadPool.checkRunningState, hr]
  · intro hr
    refine ⟨?_, ?_, ?_, ?_⟩
    · simp [ThreadPool.setMode, ThreadPool.checkRunningState, hr]
    · simp [ThreadPool.setTaskQueMaxThreshHold, ThreadPool.checkRunningState, hr]
    · intro hm
      simp [ThreadPool.setThreadSizeThreshHold, ThreadPool.checkRunningState, hr, hm]
    · intro hm
      simp [ThreadPool.setThreadSizeThreshHold, ThreadPool.checkRunningState, hr, hm]

/-- C7 amended witness: on a started pool the mode setter is a no-op. -/
theorem claim_C7_amended_setters_w :
    runningPool.isPoolRunning = true ∧
    ThreadPool.setMode runningPool PoolMode.MODE_CACHED = runningPool := by
  exact ⟨by decide,
    ((claim_C7_amended_setters runningPool PoolMode.MODE_CACHED 3 5).1 (by decide)).1⟩

/-- C10: setInitThreadSize overwrites the initial-worker-count field for
every state and argument — it touches nothing else and has no running-state
guard, in contrast with the mode, queue-capacity and worker-ceiling setters,
which are no-ops on the same running state. -/
theorem claim_C10_setInitThreadSize_unguarded (s : PoolState Nat) (n : Int) (m : PoolMode)
    (a b : Int) :
    (ThreadPool.setInitThreadSize s n).initThreadSize = n ∧
    ThreadPool.setInitThreadSize s n = { s with initThreadSize := n } ∧
    (s.isPoolRunning = true →
      ThreadPool.setMode s m = s ∧
      ThreadPool.setTaskQueMaxThreshHold s a = s ∧
      ThreadPool.setThreadSizeThreshHold s b = s) := by
  refine ⟨rfl, rfl, fun hr => ?_⟩
  simp [ThreadPool.setMode, ThreadPool.setTaskQueMaxThreshHold,
    ThreadPool.setThreadSizeThreshHold, ThreadPool.checkRunningState, hr]

/-- C10 witness: on a running pool setInitThreadSize still updates its
field. -/
theorem claim_C10_setInitThreadSize_unguarded_w :
    runningPool.isPoolRunning = true ∧
    (ThreadPool.setInitThreadSize runningPool 7).initThreadSize = 7 := by
  exact ⟨by decide,
    (claim_C10_setInitThreadSize_unguarded runningPool 7 PoolMode.MODE_CACHED 1 2).1⟩


/-- Fetch on an empty queue with the running flag down: shutdown exit, only
the record removal changes the state. -/
theorem fetch_empty_shutdown (s : PoolState Nat) (tid : Nat) (timedOut : Bool) (dur : Int)
    (hq : s.taskQue = []) (hr : s.isPoolRunning = false) :
    ThreadPool.threadFuncFetch s tid timedOut dur =
      (ThreadPool.WorkerAction.exitShutdown,
        { s with threads := s.threads.filter (fun i => i ≠ tid) }) := by
  unfold ThreadPool.threadFuncFetch
  rw [hq]
  rw [if_pos (by simp [hr])]

/-- Fetch on an empty queue, running, CACHED mode, with the timeout and both
retirement conditions met: idle-timeout exit, decrementing both counters. -/
theorem fetch_empty_retire (s : PoolState Nat) (tid : Nat) (timedOut : Bool) (dur : Int)
    (hq : s.taskQue = []) (hr : s.isPoolRunning = true)
    (hm : s.poolMode = PoolMode.MODE_CACHED)
    (hcond : timedOut = true ∧ dur ≥ THREAD_MAX_IDLE_TIME ∧
      s.curThreadSize > s.initThreadSize) :
    ThreadPool.threadFuncFetch s tid timedOut dur =
      (ThreadPool.WorkerAction.exitIdleTimeout,
        { s with
          threads := s.threads.filter (fun i => i ≠ tid)
          curThreadSize := s.curThreadSize - 1
          idleThreadSize := s.idleThreadSize - 1 }) := by
  unfold ThreadPool.threadFuncFetch
  rw [hq]
  rw [if_neg (by simp [hr])]
  rw [if_pos hm]
  rw [if_pos hcond]

/-- Fetch on an empty queue, running, CACHED mode, with the retirement
condition not met: keep waiting, state untouched. -/
theorem fetch_empty_cached_wait (s : PoolState Nat) (tid : Nat) (timedOut : Bool) (dur : Int)
    (hq : s.taskQue = []) (hr : s.isPoolRunning = true)
    (hm : s.poolMode = PoolMode.MODE_CACHED)
    (hcond : ¬ (timedOut = true ∧ dur ≥ THREAD_MAX_IDLE_TIME ∧
      s.curThreadSize > s.initThreadSize)) :
    ThreadPool.threadFuncFetch s tid timedOut dur =
      (ThreadPool.WorkerAction.keepWaiting, s) := by
  unfold ThreadPool.threadFuncFetch
  rw [hq]
  rw [if_neg (by simp [hr])]
  rw [if_pos hm]
  rw [if_neg hcond]

/-- Fetch on an empty queue, running, FIXED mode: keep waiting on
notEmpty_ with no timeout, state untouched. -/
theorem fetch_empty_fixed_wait (s : PoolState Nat) (tid : Nat) (timedOut : Bool) (dur : Int)
    (hq : s.taskQue = []) (hr : s.isPoolRunning = true)
    (hm : ¬ s.poolMode = PoolMode.MODE_CACHED) :
    ThreadPool.threadFuncFetch s tid timedOut dur =
      (ThreadPool.WorkerAction.keepWaiting, s) := by
  unfold ThreadPool.threadFuncFetch
  rw [hq]
  rw [if_neg (by simp [hr])]
  rw [if_neg hm]

/-- C3: on every successful (admitted) submission, exactly one additional
worker record is created — with curThreadSize_ and idleThreadSize_ each
incremented by one — precisely when the pool is in CACHED mode, the updated
queued-task counter exceeds the idle-worker counter, and curThreadSize_ is
below the ceiling; otherwise the worker bookkeeping is untouched.  Since the
ceiling comparison and the increment happen in the same critical section,
the submission keeps curThreadSize_ at or below the ceiling. -/
theorem claim_C3_cached_spawn (s : PoolState Nat) (t : Nat)
    (hadm : ThreadPool.admissible s) :
    (ThreadPool.submitTask s t).2 = true ∧
    ((s.poolMode = PoolMode.MODE_CACHED ∧ s.taskSize + 1 > s.idleThreadSize ∧
        s.curThreadSize < s.threadSizeThreshHold) →
      (ThreadPool.submitTask s t).1.threads = s.threads ++ [s.generateId] ∧
      (ThreadPool.submitTask s t).1.curThreadSize = s.curThreadSize + 1 ∧
      (ThreadPool.submitTask s t).1.idleThreadSize = s.idleThreadSize + 1) ∧
    (¬ (s.poolMode = PoolMode.MODE_CACHED ∧ s.taskSize + 1 > s.idleThreadSize ∧
        s.curThreadSize < s.threadSizeThreshHold) →
      (ThreadPool.submitTask s t).1.threads = s.threads ∧
      (ThreadPool.submitTask s t).1.curThreadSize = s.curThreadSize ∧
      (ThreadPool.submitTask s t).1.idleThreadSize = s.idleThreadSize) ∧
    (s.curThreadSize ≤ s.threadSizeThreshHold →
      (ThreadPool.submitTask s t).1.curThreadSize ≤ s.threadSizeThreshHold) := by
  unfold ThreadPool.submitTask
  rw [if_pos hadm]
  dsimp only
  split
  · rename_i hc
    obtain ⟨hc1, hc2, hc3⟩ := hc
    refine ⟨rfl, fun _ => ⟨rfl, rfl, rfl⟩, fun hnc => absurd ⟨hc1, hc2, hc3⟩ hnc,
      fun _ => ?_⟩
    dsimp only
    omega
  · rename_i hc
    exact ⟨rfl, fun hcc => absurd hcc hc, fun _ => ⟨rfl, rfl, rfl⟩, fun hle => hle⟩

/-- C3 witness: a running CACHED pool with two busy workers spawns a third
on submission. -/
theorem claim_C3_cached_spawn_w :
    ThreadPool.admissible cachedPool ∧
    (ThreadPool.submitTask cachedPool 5).2 = true ∧
    (ThreadPool.submitTask cachedPool 5).1.curThreadSize = cachedPool.curThreadSize + 1 := by
  have h := claim_C3_cached_spawn cachedPool 5 (by decide)
  exact ⟨by decide, h.1, (h.2.1 (by decide)).2.1⟩

/-- C4: the fetch section retires a worker through the idle timeout exactly
when the queue is empty, the pool is running, the mode is CACHED, the
1 second wait timed out, the idle duration has reached THREAD_MAX_IDLE_TIME
and curThreadSize_ exceeds initThreadSize_; the retirement decrements both
curThreadSize_ and idleThreadSize_, and every fetch outcome keeps
curThreadSize_ at or above initThreadSize_ (the shutdown exit leaves the
counters untouched altogether). -/
theorem claim_C4_idle_retirement (s : PoolState Nat) (tid : Nat) (timedOut : Bool) (dur : Int) :
    ((ThreadPool.threadFuncFetch s tid timedOut dur).1 =
        ThreadPool.WorkerAction.exitIdleTimeout ↔
      (s.taskQue = [] ∧ s.isPoolRunning = true ∧ s.poolMode = PoolMode.MODE_CACHED ∧
        timedOut = true ∧ dur ≥ THREAD_MAX_IDLE_TIME ∧
        s.curThreadSize > s.initThreadSize)) ∧
    ((ThreadPool.threadFuncFetch s tid timedOut dur).1 =
        ThreadPool.WorkerAction.exitIdleTimeout →
      (ThreadPool.threadFuncFetch s tid timedOut dur).2.curThreadSize =
        s.curThreadSize - 1 ∧
      (ThreadPool.threadFuncFetch s tid timedOut dur).2.idleThreadSize =
        s.idleThreadSize - 1) ∧
    (s.initThreadSize ≤ s.curThreadSize →
      s.initThreadSize ≤ (ThreadPool.threadFuncFetch s tid timedOut dur).2.curThreadSize) := by
  by_cases hq : s.taskQue = []
  · by_cases hr : s.isPoolRunning = true
    · by_cases hm : s.poolMode = PoolMode.MODE_CACHED
      · by_cases hcond : timedOut = true ∧ dur ≥ THREAD_MAX_IDLE_TIME ∧
            s.curThreadSize > s.initThreadSize
        · rw [fetch_empty_retire s tid timedOut dur hq hr hm hcond]
          obtain ⟨hc1, hc2, hc3⟩ := hcond
          refine ⟨?_, fun _ => ⟨rfl, rfl⟩, fun hle => ?_⟩
          · simp [hq, hr, hm, hc1, hc2, hc3]
          · dsimp only
            omega
        · rw [fetch_empty_cached_wait s tid timedOut dur hq hr hm hcond]
          refine ⟨?_, ?_, fun hle => hle⟩
          · constructor
            · intro h
              simp at h
            · rintro ⟨-, -, -, h4, h5, h6⟩
              exact absurd ⟨h4, h5, h6⟩ hcond
          · intro h
            simp at h
      · rw [fetch_empty_fixed_wait s tid timedOut dur hq hr hm]
        refine ⟨?_, ?_, fun hle => hle⟩
        · constructor
          · intro h
            simp at h
          · rintro ⟨-, -, h3, -⟩
            exact absurd h3 hm
        · intro h
          simp at h
    · have hr2 : s.isPoolRunning = false := by
        cases hb : s.isPoolRunning
        · rfl
        · exact absurd hb hr
      rw [fetch_empty_shutdown s tid timedOut dur hq hr2]
      refine ⟨?_, ?_, fun hle => hle⟩
      · constructor
        · intro h
          simp at h
        · rintro ⟨-, h2, -⟩
          exact absurd h2 hr
      · intro h
        simp at h
  · obtain ⟨u, us, huq⟩ : ∃ u us, s.taskQue = u :: us := by
      cases hcase : s.taskQue with
      | nil => exact absurd hcase hq
      | cons a b => exact ⟨a, b, rfl⟩
    rw [fetch_dequeue s tid timedOut dur u us huq]
    refine ⟨?_, ?_, fun hle => hle⟩
    · constructor
      · intro h
        simp at h
      · rintro ⟨h1, -⟩
        exact absurd h1 hq
    · intro h
      simp at h

/-- C4 witness: a CACHED pool with 3 live workers over an initial size of 2,
idle past the threshold, retires one worker, dropping to the initial size
and not below. -/
theorem claim_C4_idle_retirement_w :
    (ThreadPool.threadFuncFetch cachedIdlePool 2 true 60).1 =
      ThreadPool.WorkerAction.exitIdleTimeout ∧
    (ThreadPool.threadFuncFetch cachedIdlePool 2 true 60).2.curThreadSize = 2 ∧
    cachedIdlePool.initThreadSize ≤
      (ThreadPool.threadFuncFetch cachedIdlePool 2 true 60).2.curThreadSize := by
  have h := claim_C4_idle_retirement cachedIdlePool 2 true 60
  have hact : (ThreadPool.threadFuncFetch cachedIdlePool 2 true 60).1 =
      ThreadPool.WorkerAction.exitIdleTimeout := h.1.mpr (by decide)
  refine ⟨hact, ?_, h.2.2 (by decide)⟩
  rw [(h.2.1 hact).1]
  decide

/-- C5: the queued-task counter mirrors the queue length and the queue stays
within the capacity ceiling: the invariant is preserved by a submission
(append and increment happen together, admission forbids growing past the
ceiling), by a worker fetch (removal and decrement happen together), and by
the post-execution bookkeeping. -/
theorem claim_C5_queue_counter (s : PoolState Nat) (t : Nat) (tid : Nat)
    (timedOut : Bool) (dur : Int) (hInv : QueueInv s) :
    QueueInv (ThreadPool.submitTask s t).1 ∧
    QueueInv (ThreadPool.threadFuncFetch s tid timedOut dur).2 ∧
    QueueInv (ThreadPool.threadFuncAfterExec s) := by
  obtain ⟨hcnt, hcap⟩ := hInv
  refine ⟨?_, ?_, ?_⟩
  · by_cases hadm : ThreadPool.admissible s
    · obtain ⟨-, hq, hsz, hmax⟩ := submitTask_admitted s t hadm
      have hadm2 := hadm
      unfold ThreadPool.admissible at hadm2
      constructor
      · rw [hq, hsz, hcnt]
        simp
      · rw [hq, hmax]
        simp
        omega
    · have hid : ThreadPool.submitTask s t = (s, false) := by
        unfold ThreadPool.submitTask
        rw [if_neg hadm]
      rw [hid]
      exact ⟨hcnt, hcap⟩
  · by_cases hq : s.taskQue = []
    · by_cases hr : s.isPoolRunning = true
      · by_cases hm : s.poolMode = PoolMode.MODE_CACHED
        · by_cases hcond : timedOut = true ∧ dur ≥ THREAD_MAX_IDLE_TIME ∧
              s.curThreadSize > s.initThreadSize
          · rw [fetch_empty_retire s tid timedOut dur hq hr hm hcond]
            exact ⟨hcnt, hcap⟩
          · rw [fetch_empty_cached_wait s tid timedOut dur hq hr hm hcond]
            exact ⟨hcnt, hcap⟩
        · rw [fetch_empty_fixed_wait s tid timedOut dur hq hr hm]
          exact ⟨hcnt, hcap⟩
      · have hr2 : s.isPoolRunning = false := by
          cases hb : s.isPoolRunning
          · rfl
          · exact absurd hb hr
        rw [fetch_empty_shutdown s tid timedOut dur hq hr2]
        exact ⟨hcnt, hcap⟩
    · obtain ⟨u, us, huq⟩ : ∃ u us, s.taskQue = u :: us := by
        cases hcase : s.taskQue with
        | nil => exact absurd hcase hq
        | cons a b => exact ⟨a, b, rfl⟩
      rw [fetch_dequeue s tid timedOut dur u us huq]
      rw [huq] at hcnt hcap
      constructor
      · simp at hcnt ⊢
        omega
      · simp at hcap ⊢
        omega
  · exact ⟨hcnt, hcap⟩

/-- C5 witness: the invariant holds on the fresh pool and is kept by a
submission there. -/
theorem claim_C5_queue_counter_w :
    QueueInv (ThreadPool.new Nat) ∧
    QueueInv (ThreadPool.submitTask (ThreadPool.new Nat) 1).1 := by
  refine ⟨⟨by decide, by decide⟩, ?_⟩
  exact (claim_C5_queue_counter (ThreadPool.new Nat) 1 0 false 0
    ⟨by decide, by decide⟩).1

/-- C6: a worker that sees the queue empty and the running flag down takes
the shutdown exit no matter the mode, the wait outcome or the idle duration
— the shutdown check sits before the CACHED idle-timeout check in the loop —
removing its record (the exitShutdown path also signals exitCond_, per the
action definition) while leaving the worker counters untouched, and in
particular it never retires through the idle timeout. -/
theorem claim_C6_shutdown_priority (s : PoolState Nat) (tid : Nat) (timedOut : Bool)
    (dur : Int) (hq : s.taskQue = []) (hr : s.isPoolRunning = false) :
    ThreadPool.threadFuncFetch s tid timedOut dur =
      (ThreadPool.WorkerAction.exitShutdown,
        { s with threads := s.threads.filter (fun i => i ≠ tid) }) ∧
    (ThreadPool.threadFuncFetch s tid timedOut dur).1 ≠
      ThreadPool.WorkerAction.exitIdleTimeout ∧
    (ThreadPool.threadFuncFetch s tid timedOut dur).2.curThreadSize = s.curThreadSize ∧
    (ThreadPool.threadFuncFetch s tid timedOut dur).2.idleThreadSize = s.idleThreadSize := by
  rw [fetch_empty_shutdown s tid timedOut dur hq hr]
  refine ⟨rfl, ?_, rfl, rfl⟩
  intro h
  simp at h

/-- C6 witness: a stopping pool with an empty queue, in a configuration that
satisfies every idle-timeout condition (CACHED would anyway not apply: the
pool is FIXED here, but the timeout and duration arguments are maximal),
exits through the shutdown path. -/
theorem claim_C6_shutdown_priority_w :
    stoppingPool.taskQue = [] ∧
    stoppingPool.isPoolRunning = false ∧
    (ThreadPool.threadFuncFetch stoppingPool 0 true 60).1 =
      ThreadPool.WorkerAction.exitShutdown := by
  have h := claim_C6_shutdown_priority stoppingPool 0 true 60 (by decide) (by decide)
  refine ⟨by decide, by decide, ?_⟩
  rw [h.1]

/-- C8: the task queue is strictly FIFO.  An admitted submission appends at
the back; a fetch on a non-empty queue removes and returns the front — the
oldest task still queued — leaving the rest; and draining a batch of
submissions by repeated worker fetches yields the tasks in submission order
behind whatever was already queued. -/
theorem claim_C8_fifo (s : PoolState Nat) (t : Nat) (ts : List Nat)
    (hadm : ThreadPool.admissible s)
    (hbatch : s.taskQue.length + ts.length ≤ asSizeT s.taskQueMaxThreshHold) :
    (ThreadPool.submitTask s t).1.taskQue = s.taskQue ++ [t] ∧
    (∀ (s2 : PoolState Nat) (tid : Nat) (timedOut : Bool) (dur : Int) (u : Nat)
        (us : List Nat),
      s2.taskQue = u :: us →
      (ThreadPool.threadFuncFetch s2 tid timedOut dur).1 =
        ThreadPool.WorkerAction.dequeued u ∧
      (ThreadPool.threadFuncFetch s2 tid timedOut dur).2.taskQue = us) ∧
    drainOrder (submitAll s ts) = s.taskQue ++ ts := by
  refine ⟨(submitTask_admitted s t hadm).2.1, ?_, ?_⟩
  · intro s2 tid timedOut dur u us h
    rw [fetch_dequeue s2 tid timedOut dur u us h]
    exact ⟨rfl, rfl⟩
  · obtain ⟨h1, -⟩ := submitAll_queue ts s hbatch
    rw [drainOrder_eq (submitAll s ts).taskQue.length _ le_rfl, h1]

/-- C8 witness: three tasks submitted to the fresh pool drain in submission
order. -/
theorem claim_C8_fifo_w :
    ThreadPool.admissible (ThreadPool.new Nat) ∧
    (ThreadPool.new Nat).taskQue.length + [1, 2, 3].length ≤
      asSizeT (ThreadPool.new Nat).taskQueMaxThreshHold ∧
    drainOrder (submitAll (ThreadPool.new Nat) [1, 2, 3]) = [1, 2, 3] := by
  have h := claim_C8_fifo (ThreadPool.new Nat) 1 [1, 2, 3] (by decide) (by decide)
  refine ⟨by decide, by decide, ?_⟩
  simpa using h.2.2

/-- C9 counterexample: running the demo submission of ThreadCpp main —
MyTask(1,10000000) through a fixed pool of 4 workers — delivers the uLong
50000005000000 to the Result slot, so get() returns 50000005000000, not the
50000000000 the claim states. -/
theorem claim_C9_counterexample :
    TCpp.Task.exec (fun _ => (Except.ok (TCpp.MyTask.run 1 10000000) :
        Except String TCpp.Any)) (some mySlot) =
      Except.ok (some mySlotAfter) ∧
    TCpp.Result.get mySlotAfter = TCpp.GetOutcome.value (TCpp.Any.ulong 50000005000000) ∧
    TCpp.Any.castULong (TCpp.Any.ulong 50000005000000) = some 50000005000000 ∧
    (50000005000000 : Nat) ≠ 50000000000 := by
  exact ⟨rfl, mySlotAfter_get, rfl, by norm_num⟩

/-- C9 amended: submitting MyTask(1,10000000) to the fixed pool of 4 workers
of ThreadCpp main and reading its handle returns 50000005000000 (the sum of
the integers 1..10000000). -/
theorem claim_C9_amended_demo :
    mainPool.isPoolRunning = true ∧
    mainPool.curThreadSize = 4 ∧
    mainPool.poolMode = PoolMode.MODE_FIXED ∧
    mySlot.isValid = true ∧
    (ThreadPool.threadFuncFetch (TCpp.submitTaskR mainPool 0).1 3 false 0).1 =
      ThreadPool.WorkerAction.dequeued 0 ∧
    TCpp.Task.exec (fun _ => (Except.ok (TCpp.MyTask.run 1 10000000) :
        Except String TCpp.Any)) (some mySlot) =
      Except.ok (some mySlotAfter) ∧
    TCpp.Result.get mySlotAfter = TCpp.GetOutcome.value (TCpp.Any.ulong 50000005000000) ∧
    TCpp.Any.castULong (TCpp.Any.ulong 50000005000000) = some 50000005000000 := by
  exact ⟨by decide, by decide, by decide, by decide, by decide, rfl,
    mySlotAfter_get, rfl⟩
